import Mathlib

/-!
Verification of the `simulation_types` enumeration of ngspice-rs
(`src/ngspice-rs-sys/sim.h`) against its natural-language specification.

The header declares a single C enumeration, `enum simulation_types`, with 23
enumeration constants and no explicit initializers.  We embed the enumeration
as an inductive type, embed the declaration itself (the ordered list of
enumerator names together with their optional explicit initializers) as data,
and embed the C value-assignment rule for enumerations so that each
enumerator's discriminant is computed exactly as a C compiler would.

The boundary-conversion operations `from_raw`, `to_raw` and `name` described
by the specification live in the Rust binding, which is not part of the
sources under verification; they are modelled from the specification and
marked as such.
-/

namespace Ngspice

/-- The C enumeration `enum simulation_types` from `sim.h`, one constructor
per enumerator, in declaration order. -/
inductive SimulationType : Type
  | SV_NOTYPE
  | SV_TIME
  | SV_FREQUENCY
  | SV_VOLTAGE
  | SV_CURRENT
  | SV_VOLTAGE_DENSITY
  | SV_CURRENT_DENSITY
  | SV_SQR_VOLTAGE_DENSITY
  | SV_SQR_CURRENT_DENSITY
  | SV_SQR_VOLTAGE
  | SV_SQR_CURRENT
  | SV_POLE
  | SV_ZERO
  | SV_SPARAM
  | SV_TEMP
  | SV_RES
  | SV_IMPEDANCE
  | SV_ADMITTANCE
  | SV_POWER
  | SV_PHASE
  | SV_DB
  | SV_CAPACITANCE
  | SV_CHARGE
  deriving DecidableEq, Fintype, Repr

open SimulationType

/-- The enumerators of `enum simulation_types` in declaration order. -/
def declarationOrder : List SimulationType :=
  [SV_NOTYPE, SV_TIME, SV_FREQUENCY, SV_VOLTAGE, SV_CURRENT,
   SV_VOLTAGE_DENSITY, SV_CURRENT_DENSITY, SV_SQR_VOLTAGE_DENSITY,
   SV_SQR_CURRENT_DENSITY, SV_SQR_VOLTAGE, SV_SQR_CURRENT, SV_POLE,
   SV_ZERO, SV_SPARAM, SV_TEMP, SV_RES, SV_IMPEDANCE, SV_ADMITTANCE,
   SV_POWER, SV_PHASE, SV_DB, SV_CAPACITANCE, SV_CHARGE]

/-- The spelling of each enumerator exactly as written in `sim.h`. -/
def ctorName : SimulationType → String
  | SV_NOTYPE => "SV_NOTYPE"
  | SV_TIME => "SV_TIME"
  | SV_FREQUENCY => "SV_FREQUENCY"
  | SV_VOLTAGE => "SV_VOLTAGE"
  | SV_CURRENT => "SV_CURRENT"
  | SV_VOLTAGE_DENSITY => "SV_VOLTAGE_DENSITY"
  | SV_CURRENT_DENSITY => "SV_CURRENT_DENSITY"
  | SV_SQR_VOLTAGE_DENSITY => "SV_SQR_VOLTAGE_DENSITY"
  | SV_SQR_CURRENT_DENSITY => "SV_SQR_CURRENT_DENSITY"
  | SV_SQR_VOLTAGE => "SV_SQR_VOLTAGE"
  | SV_SQR_CURRENT => "SV_SQR_CURRENT"
  | SV_POLE => "SV_POLE"
  | SV_ZERO => "SV_ZERO"
  | SV_SPARAM => "SV_SPARAM"
  | SV_TEMP => "SV_TEMP"
  | SV_RES => "SV_RES"
  | SV_IMPEDANCE => "SV_IMPEDANCE"
  | SV_ADMITTANCE => "SV_ADMITTANCE"
  | SV_POWER => "SV_POWER"
  | SV_PHASE => "SV_PHASE"
  | SV_DB => "SV_DB"
  | SV_CAPACITANCE => "SV_CAPACITANCE"
  | SV_CHARGE => "SV_CHARGE"

/-- The enumerator declarations of `enum simulation_types` as they appear in
`sim.h` lines 36-60: each enumerator name paired with its explicit
initializer, of which there are none (`none` throughout). -/
def enumeratorDecls : List (String × Option Int) :=
  declarationOrder.map (fun k => (ctorName k, none))

/-- The C value-assignment rule for enumerations (C17 6.7.2.2): an enumerator
with an explicit initializer takes that value; an enumerator without one
takes 0 if it is the first, and otherwise one more than the value of the
previous enumerator.  `next` is the value the next uninitialized enumerator
would receive. -/
def assignEnumValues : List (String × Option Int) → Int → List (String × Int)
  | [], _ => []
  | (n, some v) :: rest, _ => (n, v) :: assignEnumValues rest (v + 1)
  | (n, none) :: rest, next => (n, next) :: assignEnumValues rest (next + 1)

/-- The enumerator/value pairs of `enum simulation_types` as a C compiler
computes them. -/
def enumValues : List (String × Int) :=
  assignEnumValues enumeratorDecls 0

/-- The discriminant of an enumerator of `enum simulation_types` under C
semantics (`none` would mean the enumerator is absent from the declaration,
which does not happen). -/
def discriminant (k : SimulationType) : Option Int :=
  enumValues.lookup (ctorName k)

/-- Modelled from the spec: the sole error kind of the registry,
`UnknownSignalKind{raw_value}`, carrying the offending raw integer. -/
structure UnknownSignalKind where
  raw : Int
  deriving DecidableEq, Repr

/-- Modelled from the spec: `from_raw(value) -> Result<SignalKind,
UnknownSignalKind>`, the boundary-conversion routine of the binding (not
part of the sources under `src/`).  It maps each documented raw tag of the
table in §3 to its variant and fails with `UnknownSignalKind{value}` on any
other integer. -/
def from_raw (value : Int) : Except UnknownSignalKind SimulationType :=
  if value = 0 then .ok SV_NOTYPE
  else if value = 1 then .ok SV_TIME
  else if value = 2 then .ok SV_FREQUENCY
  else if value = 3 then .ok SV_VOLTAGE
  else if value = 4 then .ok SV_CURRENT
  else if value = 5 then .ok SV_VOLTAGE_DENSITY
  else if value = 6 then .ok SV_CURRENT_DENSITY
  else if value = 7 then .ok SV_SQR_VOLTAGE_DENSITY
  else if value = 8 then .ok SV_SQR_CURRENT_DENSITY
  else if value = 9 then .ok SV_SQR_VOLTAGE
  else if value = 10 then .ok SV_SQR_CURRENT
  else if value = 11 then .ok SV_POLE
  else if value = 12 then .ok SV_ZERO
  else if value = 13 then .ok SV_SPARAM
  else if value = 14 then .ok SV_TEMP
  else if value = 15 then .ok SV_RES
  else if value = 16 then .ok SV_IMPEDANCE
  else if value = 17 then .ok SV_ADMITTANCE
  else if value = 18 then .ok SV_POWER
  else if value = 19 then .ok SV_PHASE
  else if value = 20 then .ok SV_DB
  else if value = 21 then .ok SV_CAPACITANCE
  else if value = 22 then .ok SV_CHARGE
  else .error ⟨value⟩

/-- Modelled from the spec: `to_raw(kind) -> integer`, the infallible
encoding direction of the binding (not part of the sources under `src/`),
with each variant's discriminant pinned explicitly to its documented integer
as §9 requires. -/
def to_raw (kind : SimulationType) : Int :=
  match kind with
  | SV_NOTYPE => 0
  | SV_TIME => 1
  | SV_FREQUENCY => 2
  | SV_VOLTAGE => 3
  | SV_CURRENT => 4
  | SV_VOLTAGE_DENSITY => 5
  | SV_CURRENT_DENSITY => 6
  | SV_SQR_VOLTAGE_DENSITY => 7
  | SV_SQR_CURRENT_DENSITY => 8
  | SV_SQR_VOLTAGE => 9
  | SV_SQR_CURRENT => 10
  | SV_POLE => 11
  | SV_ZERO => 12
  | SV_SPARAM => 13
  | SV_TEMP => 14
  | SV_RES => 15
  | SV_IMPEDANCE => 16
  | SV_ADMITTANCE => 17
  | SV_POWER => 18
  | SV_PHASE => 19
  | SV_DB => 20
  | SV_CAPACITANCE => 21
  | SV_CHARGE => 22

/-- Modelled from the spec: `name(kind) -> string`, the human-readable label
of a variant (not part of the sources under `src/`), following the variant
names of the table in §3. -/
def name (kind : SimulationType) : String :=
  match kind with
  | SV_NOTYPE => "NoType"
  | SV_TIME => "Time"
  | SV_FREQUENCY => "Frequency"
  | SV_VOLTAGE => "Voltage"
  | SV_CURRENT => "Current"
  | SV_VOLTAGE_DENSITY => "VoltageDensity"
  | SV_CURRENT_DENSITY => "CurrentDensity"
  | SV_SQR_VOLTAGE_DENSITY => "SqrVoltageDensity"
  | SV_SQR_CURRENT_DENSITY => "SqrCurrentDensity"
  | SV_SQR_VOLTAGE => "SqrVoltage"
  | SV_SQR_CURRENT => "SqrCurrent"
  | SV_POLE => "Pole"
  | SV_ZERO => "Zero"
  | SV_SPARAM => "SParam"
  | SV_TEMP => "Temperature"
  | SV_RES => "Resistance"
  | SV_IMPEDANCE => "Impedance"
  | SV_ADMITTANCE => "Admittance"
  | SV_POWER => "Power"
  | SV_PHASE => "Phase"
  | SV_DB => "DecibelMagnitude"
  | SV_CAPACITANCE => "Capacitance"
  | SV_CHARGE => "Charge"

/-- The table of §3 of the specification: each row's ordinal and variant
name, top to bottom. -/
def specTable : List (Nat × String) :=
  [(0, "NoType"), (1, "Time"), (2, "Frequency"), (3, "Voltage"),
   (4, "Current"), (5, "VoltageDensity"), (6, "CurrentDensity"),
   (7, "SqrVoltageDensity"), (8, "SqrCurrentDensity"), (9, "SqrVoltage"),
   (10, "SqrCurrent"), (11, "Pole"), (12, "Zero"), (13, "SParam"),
   (14, "Temperature"), (15, "Resistance"), (16, "Impedance"),
   (17, "Admittance"), (18, "Power"), (19, "Phase"),
   (20, "DecibelMagnitude"), (21, "Capacitance"), (22, "Charge")]

/-! ## Helper lemmas -/

/-- `from_raw` rejects every integer outside `[0, 22]` with the error
carrying that integer. -/
theorem from_raw_out_of_range (v : Int) (h : v < 0 ∨ 22 < v) :
    from_raw v = .error ⟨v⟩ := by
  unfold from_raw
  repeat rw [if_neg (by omega)]

/-- `from_raw` accepts every integer in `[0, 22]`, and `to_raw` sends the
decoded variant back to that integer. -/
theorem from_raw_in_range (v : Int) (h0 : 0 ≤ v) (h1 : v ≤ 22) :
    ∃ k, from_raw v = .ok k ∧ to_raw k = v := by
  interval_cases v <;> exact ⟨_, rfl, rfl⟩

/-! ## Claims -/

/-- Claim C1: under C enumeration semantics, the discriminant of every
variant of `simulation_types` equals its 0-indexed position in the declared
order, equals the explicitly pinned integer returned by `to_raw`, and is the
ordinal of the spec-table row carrying that variant's name. -/
theorem claim_C1 : ∀ k : SimulationType,
    discriminant k = some ((declarationOrder.indexOf k : Nat) : Int)
    ∧ discriminant k = some (to_raw k)
    ∧ specTable[(to_raw k).toNat]? = some ((to_raw k).toNat, name k) := by
  decide

/-- Claim C2: `from_raw v` succeeds exactly when `0 ≤ v ≤ 22`; outside that
range it fails with `UnknownSignalKind` carrying exactly the raw integer
`v`. -/
theorem claim_C2 (v : Int) :
    ((∃ k, from_raw v = .ok k) ↔ (0 ≤ v ∧ v ≤ 22))
    ∧ (v < 0 ∨ 22 < v → from_raw v = .error ⟨v⟩)
    ∧ (∀ e, from_raw v = .error e → e.raw = v) := by
  refine ⟨⟨fun ⟨k, hk⟩ => ?_, fun ⟨h0, h1⟩ => ?_⟩, fun h => from_raw_out_of_range v h, fun e he => ?_⟩
  · by_contra hout
    rw [from_raw_out_of_range v (by omega)] at hk
    exact Except.noConfusion hk
  · obtain ⟨k, hk, -⟩ := from_raw_in_range v h0 h1
    exact ⟨k, hk⟩
  · by_cases hr : 0 ≤ v ∧ v ≤ 22
    · obtain ⟨k, hk, -⟩ := from_raw_in_range v hr.1 hr.2
      rw [hk] at he
      exact Except.noConfusion he
    · rw [from_raw_out_of_range v (by omega)] at he
      cases he
      rfl

/-- Witness for claim C2 at the concrete raw value 99. -/
theorem claim_C2_witness : from_raw 99 = .error ⟨99⟩ :=
  (claim_C2 99).2.1 (by decide)

/-- Claim C3: on every integer in `[0, 22]`, decoding succeeds and
re-encoding the decoded variant is the identity. -/
theorem claim_C3 (v : Int) (h0 : 0 ≤ v) (h1 : v ≤ 22) :
    ∃ k, from_raw v = .ok k ∧ to_raw k = v :=
  from_raw_in_range v h0 h1

/-- Witness for claim C3 at the concrete raw value 7. -/
theorem claim_C3_witness : ∃ k, from_raw 7 = .ok k ∧ to_raw k = 7 :=
  claim_C3 7 (by decide) (by decide)

/-- Claim C4: the enumeration has exactly 23 variants and its declaration
order reproduces the spec's §3 table one-to-one: positions carry matching
names, the table ordinals are 0..22 in order, both sides are duplicate-free,
and every variant occurs in the declared list. -/
theorem claim_C4 :
    Fintype.card SimulationType = 23
    ∧ declarationOrder.length = 23
    ∧ specTable.length = 23
    ∧ declarationOrder.map name = specTable.map Prod.snd
    ∧ specTable.map Prod.fst = List.range 23
    ∧ declarationOrder.Nodup
    ∧ (specTable.map Prod.snd).Nodup
    ∧ ∀ k : SimulationType, k ∈ declarationOrder := by
  decide

/-- Claim C5: `to_raw` is total on the variant set (every variant encodes to
a raw value that decodes back to it) and injective: distinct variants never
share a raw integer. -/
theorem claim_C5 :
    (∀ k : SimulationType, from_raw (to_raw k) = .ok k)
    ∧ (∀ k1 k2 : SimulationType, k1 ≠ k2 → to_raw k1 ≠ to_raw k2) :=
  ⟨fun k => by cases k <;> rfl, by decide⟩

/-- Witness for claim C5 at the concrete pair of distinct variants
`SV_POLE` and `SV_ZERO`. -/
theorem claim_C5_witness : to_raw SimulationType.SV_POLE ≠ to_raw SimulationType.SV_ZERO :=
  claim_C5.2 SimulationType.SV_POLE SimulationType.SV_ZERO (by decide)

/-- Claim C6: on every integer outside `[0, 22]`, `from_raw` never returns
any success value — in particular not `SV_NOTYPE` — and always surfaces the
`UnknownSignalKind` error. -/
theorem claim_C6 (v : Int) (h : v < 0 ∨ 22 < v) :
    (∀ k, from_raw v ≠ .ok k)
    ∧ from_raw v ≠ .ok SimulationType.SV_NOTYPE
    ∧ from_raw v = .error ⟨v⟩ := by
  have he := from_raw_out_of_range v h
  refine ⟨fun k hk => ?_, fun hk => ?_, he⟩
  · rw [he] at hk
    exact Except.noConfusion hk
  · rw [he] at hk
    exact Except.noConfusion hk

/-- Witness for claim C6 at the concrete raw value -1. -/
theorem claim_C6_witness : from_raw (-1) = .error ⟨-1⟩ :=
  (claim_C6 (-1) (by decide)).2.2

/-- Claim C7: decoding raw 3 yields `SV_VOLTAGE` (Voltage) and re-encodes
to 3; decoding raw 18 yields `SV_POWER` (Power); decoding raw 99 fails with
`UnknownSignalKind` carrying 99. -/
theorem claim_C7 :
    from_raw 3 = .ok SimulationType.SV_VOLTAGE
    ∧ to_raw SimulationType.SV_VOLTAGE = 3
    ∧ from_raw 18 = .ok SimulationType.SV_POWER
    ∧ from_raw 99 = .error ⟨99⟩
    ∧ (⟨99⟩ : UnknownSignalKind).raw = 99 :=
  ⟨rfl, rfl, rfl, rfl, rfl⟩

/-- Claim C8: the registry operations are pure functions of their argument:
equal inputs give equal outputs, and any interleaving (permutation) of a
batch of reads produces the same multiset of results for `from_raw`,
`to_raw` and `name`. -/
theorem claim_C8 :
    (∀ v w : Int, v = w → from_raw v = from_raw w)
    ∧ (∀ l1 l2 : List Int, l1.Perm l2 → (l1.map from_raw).Perm (l2.map from_raw))
    ∧ (∀ l1 l2 : List SimulationType, l1.Perm l2 → (l1.map to_raw).Perm (l2.map to_raw))
    ∧ (∀ l1 l2 : List SimulationType, l1.Perm l2 → (l1.map name).Perm (l2.map name)) :=
  ⟨fun _ _ h => congrArg from_raw h,
   fun _ _ h => h.map from_raw,
   fun _ _ h => h.map to_raw,
   fun _ _ h => h.map name⟩

/-- Witness for claim C8 on the concrete reader interleavings
`[3, 99]` and `[99, 3]`. -/
theorem claim_C8_witness :
    (([3, 99] : List Int).map from_raw).Perm (([99, 3] : List Int).map from_raw) :=
  claim_C8.2.1 [3, 99] [99, 3] (by decide)

/-- Claim C9: every discriminant lies in `[0, 22]` and is exactly
representable in 32 bits, signed or unsigned, without wrap-around, and the
valid domain of `from_raw` also fits that width. -/
theorem claim_C9 :
    (∀ k : SimulationType, 0 ≤ to_raw k ∧ to_raw k ≤ 22)
    ∧ (∀ k : SimulationType, -(2 ^ 31) ≤ to_raw k ∧ to_raw k < 2 ^ 31)
    ∧ (∀ k : SimulationType, to_raw k % 2 ^ 32 = to_raw k)
    ∧ (∀ v : Int, (∃ k, from_raw v = .ok k) →
        -(2 ^ 31) ≤ v ∧ v < 2 ^ 31 ∧ v % 2 ^ 32 = v) := by
  refine ⟨by decide, by decide, by decide, fun v ⟨k, hk⟩ => ?_⟩
  have hrange : 0 ≤ v ∧ v ≤ 22 := by
    by_contra hout
    rw [from_raw_out_of_range v (by omega)] at hk
    exact Except.noConfusion hk
  omega

/-- Witness for claim C9 at the concrete raw value 5. -/
theorem claim_C9_witness : -(2 ^ 31) ≤ (5 : Int) ∧ (5 : Int) < 2 ^ 31 ∧ (5 : Int) % 2 ^ 32 = 5 :=
  claim_C9.2.2.2 5 ⟨SimulationType.SV_VOLTAGE_DENSITY, rfl⟩

/-- Claim C10: no enumerator of `simulation_types` carries an explicit
initializer, so C semantics assigns value 0 to `SV_NOTYPE` and each
subsequent enumerator its predecessor's value plus one; the 23 values form
the contiguous duplicate-free range 0..22, and raw 0 decodes to
`SV_NOTYPE`. -/
theorem claim_C10 :
    enumeratorDecls.all (fun d => d.2.isNone) = true
    ∧ enumValues.length = 23
    ∧ enumValues.map Prod.snd = (List.range 23).map Int.ofNat
    ∧ ((enumValues.map Prod.snd).zip (enumValues.map Prod.snd).tail).all
        (fun p => p.2 == p.1 + 1) = true
    ∧ (enumValues.map Prod.snd).Nodup
    ∧ enumValues.lookup "SV_NOTYPE" = some 0
    ∧ discriminant SimulationType.SV_NOTYPE = some 0
    ∧ from_raw 0 = .ok SimulationType.SV_NOTYPE :=
  ⟨rfl, rfl, rfl, by decide, by decide, rfl, rfl, rfl⟩

end Ngspice
